import Mathlib

/-!
Verification of the do-device repository: a Lean 4 shallow embedding of the
credential store (src/bin/pwdecrypt.py, src/bin/SSH_pwdecrypt.py), the
envelope cipher wrappers (src/bin/pwencrypt.py, src/bin/pwdecrypt.py), the
console automation engine (src/bin/do-oob-device.py) and the interface-name
normalization (src/bin/get-snmp-mac.py, src/bin/get-snmp-arp.py), together
with theorems settling the specification claims.

Python strings are embedded as Lean String, Python bytes as List Nat,
Python exceptions as Except with an explicit error type, and Python dicts
as association lists with overwrite-on-update semantics.
-/

namespace Py

/-- Python membership test for strings: needle in hay (contiguous substring). -/
def subIn (needle : List Char) : List Char → Bool
  | [] => needle.isEmpty
  | c :: t => needle.isPrefixOf (c :: t) || subIn needle t

/-- Python expression: needle in hay, on String. -/
def pyIn (needle hay : String) : Bool := subIn needle.data hay.data

/-- Python s.startswith(p). -/
def startsWith (s p : String) : Bool := p.data.isPrefixOf s.data

/-- Splitting a character list at every occurrence of the separator. -/
def splitChar (sep : Char) : List Char → List (List Char)
  | [] => [[]]
  | c :: r =>
      match splitChar sep r with
      | h :: t => if c = sep then [] :: (h :: t) else (c :: h) :: t
      | [] => [[c]]

/-- Python s.strip(): drop whitespace from both ends. -/
def stripWs (s : String) : String :=
  ⟨((s.data.dropWhile (fun c => c.isWhitespace)).reverse.dropWhile
      (fun c => c.isWhitespace)).reverse⟩

/-- Decimal digits of a natural number, most significant first; the fuel is
an upper bound on the number of digits. -/
def natChars : Nat → Nat → List Char
  | 0, _ => []
  | fuel + 1, n =>
      if n < 10 then [Char.ofNat (48 + n)]
      else natChars fuel (n / 10) ++ [Char.ofNat (48 + n % 10)]

/-- Python str(i) for an integer. -/
def intToStr (i : Int) : String :=
  if i < 0 then "-" ++ ⟨natChars (i.natAbs + 1) i.natAbs⟩
  else ⟨natChars (i.natAbs + 1) i.natAbs⟩

/-- Python str.lstrip(): drop leading whitespace. -/
def lstrip (s : String) : String := ⟨s.data.dropWhile (fun c => c.isWhitespace)⟩

/-- Python str.rstrip(chr 10): drop trailing newline characters. -/
def rstripNl (s : String) : String :=
  ⟨(s.data.reverse.dropWhile (fun c => c = Char.ofNat 10)).reverse⟩

/-- Python curline.count(chr 59): number of semicolons in the string. -/
def semiCount (s : String) : Nat := s.data.countP (fun c => c = ';')

/-- Python curline.split(chr 59): split at every semicolon, keeping empty
fields; it always returns semiCount + 1 fields. -/
def splitSemi (s : String) : List String := (splitChar ';' s.data).map (fun l => ⟨l⟩)

/-- The line cleanup both credential readers apply to every raw file line:
curline = line.lstrip() followed by curline.rstrip(newline). -/
def cleanLine (line : String) : String := rstripNl (lstrip line)

/-- A cleaned line is processed (not skipped) iff it is nonempty and is not
a comment line starting with the hash character. -/
def isActiveLine (cur : String) : Bool := cur.length > 0 && !(startsWith cur "#")

/-- Concatenation of a list of strings in order. -/
def concatAll : List String → String
  | [] => ""
  | s :: r => s ++ concatAll r

end Py

namespace Crypto

/-- Modelled from the spec: the Fernet envelope cipher from the external
cryptography library is not part of this repository's sources.  Spec 4.1 and
6 describe it as a versioned, timestamped, integrity-tagged token verifiable
only against the single fixed key.  The integrity tag is modelled as an
ideal MAC: an injective function of the key and the token fields, so a tag
verifies exactly when key and fields match the ones used to produce it.
UTF-8 byte encoding is modelled as the codepoint sequence of the string. -/
def utf8Encode (s : String) : List Nat := s.data.map Char.toNat

/-- Modelled from the spec: byte-sequence decoding back to text, failing on
sequences that do not round-trip through the codepoint embedding. -/
def utf8Decode (bs : List Nat) : Option String :=
  let cs := bs.map Char.ofNat
  if cs.map Char.toNat = bs then some ⟨cs⟩ else none


/-- Modelled from the spec: a parsed Fernet token (version byte, timestamp,
ciphertext body, integrity tag).  Confidentiality is not claimed anywhere in
the spec, so the body is modelled as the plaintext bytes themselves. -/
structure FernetToken where
  version : Nat
  timestamp : Nat
  body : List Nat
  tag : List Nat
deriving DecidableEq

/-- Modelled from the spec: the ideal MAC.  The leading length field makes
the encoding of (key, version, timestamp, body) self-delimiting, hence
injective. -/
def mactag (key : String) (version timestamp : Nat) (body : List Nat) : List Nat :=
  key.length :: (utf8Encode key ++ version :: timestamp :: body)


/-- The errors decrypt can produce: spec 4.1 names IntegrityError for
tampering or a wrong key and FormatError for malformed input. -/
inductive CryptoError where
  | integrityError
  | formatError
deriving DecidableEq

/-- Modelled from the spec: what the decrypt entry point receives - either a
well-formed token blob (parsed) or a malformed string. -/
inductive TokenInput where
  | token (t : FernetToken)
  | malformed (raw : String)
deriving DecidableEq

/-- Modelled from the spec: Fernet encryption with key, at timestamp ts, of
plaintext bytes pt.  The version byte of a Fernet token is 128. -/
def fernetEncrypt (key : String) (ts : Nat) (pt : List Nat) : FernetToken :=
  { version := 128, timestamp := ts, body := pt, tag := mactag key 128 ts pt }

/-- Modelled from the spec: Fernet decryption - malformed input is a format
error, otherwise the tag is verified against the given key and mismatch (or
a bad version byte) is an integrity failure. -/
def fernetDecrypt (key : String) (inp : TokenInput) : Except CryptoError (List Nat) :=
  match inp with
  | .malformed _ => .error .formatError
  | .token t =>
      if t.version = 128 ∧ t.tag = mactag key t.version t.timestamp t.body then
        .ok t.body
      else
        .error .integrityError

/-- The CRYPTKEY literal of src/bin/pwencrypt.py line 48. -/
def CRYPTKEY_pwencrypt : String := "Vn3x5ZiaL8Tg7NU1f3TlZRYXHnVslrgQUISQIa8n5Bg="

/-- The CRYPTKEY literal of src/bin/pwdecrypt.py line 42. -/
def CRYPTKEY_pwdecrypt : String := "Vn3x5ZiaL8Tg7NU1f3TlZRYXHnVslrgQUISQIa8n5Bg="


/-- encrypt_password of src/bin/pwencrypt.py lines 43-53: utf-8 encode the
password and Fernet-encrypt it under the fixed key. -/
def encrypt_password (ts : Nat) (password : String) : FernetToken :=
  fernetEncrypt CRYPTKEY_pwencrypt ts (utf8Encode password)

/-- decrypt_password of src/bin/pwdecrypt.py lines 35-49: Fernet-decrypt
under the fixed key, then utf-8 decode the plaintext bytes. -/
def decrypt_password (crypted : TokenInput) : Except CryptoError String :=
  match fernetDecrypt CRYPTKEY_pwdecrypt crypted with
  | .error e => .error e
  | .ok bytes =>
      match utf8Decode bytes with
      | some s => .ok s
      | none => .error .formatError

/-- A token is tampered when its tag does not verify under the process key
(this covers any modification of version, timestamp, body or tag). -/
def tampered (t : FernetToken) : Prop :=
  t.version ≠ 128 ∨ t.tag ≠ mactag CRYPTKEY_pwdecrypt t.version t.timestamp t.body

end Crypto


namespace Store

/-- Python exceptions that credential resolution can raise and does not
catch: KeyError from a realm-dict lookup, InvalidToken from Fernet
decryption, ValueError from int() on a port field, NameError from reading
an unbound local variable. -/
inductive PyErr where
  | keyError (k : String)
  | invalidToken
  | valueError
  | nameError (n : String)
deriving DecidableEq

/-- The behavior of decrypt_password on encrypted string literals is a
parameter of the store embedding: some v means the literal decrypts to v,
none means decryption raises InvalidToken. -/
def DecOracle : Type := String → Option String

/-- A call decrypt_password(s): the raised InvalidToken propagates. -/
def liftDec (dec : DecOracle) (s : String) : Except PyErr String :=
  match dec s with
  | some v => .ok v
  | none => .error .invalidToken

/-- One realm entry as built by read_credentials. -/
structure Realm where
  username : String
  password : String
  secret : String
deriving DecidableEq

/-- Python dict with String keys: association list, assignment overwrites
the existing binding in place or appends a new one. -/
def RealmMap : Type := List (String × Realm)

instance : DecidableEq RealmMap := by
  unfold RealmMap
  infer_instance

/-- Python dict assignment realms[k] = v. -/
def dictSet (m : List (String × Realm)) (k : String) (v : Realm) : List (String × Realm) :=
  match m with
  | [] => [(k, v)]
  | (k0, v0) :: t => if k0 = k then (k, v) :: t else (k0, v0) :: dictSet t k v

/-- Python dict lookup realms[k] as an Option. -/
def dictFind (m : List (String × Realm)) (k : String) : Option Realm :=
  match m with
  | [] => none
  | (k0, v0) :: t => if k0 = k then some v0 else dictFind t k

/-- Processing of one credentials.txt line by read_credentials
(src/bin/pwdecrypt.py lines 68-86, identical in SSH_pwdecrypt.py lines
72-90): lines that are blank, comments, or do not have exactly 3
semicolons are skipped; the password field is decrypted; a secret field
equal to the star literal copies the decrypted password, any other secret
is decrypted; entries with an empty username, password or secret are
dropped; otherwise the realm dict is updated. -/
def readCredentialsLine (dec : DecOracle) (realms : RealmMap) (line : String) :
    Except PyErr RealmMap :=
  let cur := Py.cleanLine line
  if Py.isActiveLine cur then
    if Py.semiCount cur = 3 then
      match Py.splitSemi cur with
      | [myrealm, username, password0, secret0] => do
          let password ← liftDec dec password0
          let secret ← if secret0 = "*" then pure password else liftDec dec secret0
          if username = "" ∨ password = "" ∨ secret = "" then
            pure realms
          else
            pure (dictSet realms myrealm ⟨username, password, secret⟩)
      | _ => pure realms
    else pure realms
  else pure realms

/-- read_credentials (src/bin/pwdecrypt.py lines 51-91) over the list of
file lines: fold the per-line processing over an initially empty dict and
return none when the final dict is empty. -/
def read_credentials (dec : DecOracle) (lines : List String) :
    Except PyErr (Option RealmMap) := do
  let realms ← lines.foldlM (readCredentialsLine dec) ([] : RealmMap)
  if realms = ([] : RealmMap) then pure none else pure (some realms)

/-- The resolved credential bundle returned for a matching device
(src/bin/pwdecrypt.py lines 151-158). -/
structure DeviceCredentials where
  ip : String
  global_delay_factor : Nat
  device_type : String
  username : String
  password : String
  secret : String
deriving DecidableEq

/-- The three possible outcomes of the device scan: a resolved bundle, the
empty-string return for a matched device with an empty resolved field, or
the None return when no line matches. -/
inductive DevResult where
  | found (c : DeviceCredentials)
  | unresolved
  | notFound
deriving DecidableEq

/-- Python int(s) on a string: surrounding whitespace ignored, optional
sign, at least one digit; anything else raises ValueError. -/
def pyInt (s : String) : Except PyErr Int :=
  let t := Py.stripWs s
  let core : Int × List Char :=
    match t.data with
    | '+' :: r => (1, r)
    | '-' :: r => (-1, r)
    | r => (1, r)
  if core.2 ≠ [] ∧ core.2.all Char.isDigit then
    .ok (core.1 * (core.2.foldl (fun a c => a * 10 + (c.toNat - 48)) 0 : Nat))
  else
    .error .valueError

/-- How a secret field that is a realm reference is resolved: the two
credential-file variants differ here.  The argument is the full field
value including its leading star, the projection selects the realm
component. -/
def RefGet : Type := RealmMap → String → (Realm → String) → Except PyErr String

/-- pwdecrypt.py policy (lines 131-145): realms[field] with no membership
check, so an unknown reference raises KeyError. -/
def refGetPwd : RefGet := fun realms k proj =>
  match dictFind realms k with
  | some r => .ok (proj r)
  | none => .error (.keyError k)

/-- SSH_pwdecrypt.py policy (lines 149-174): if field in realms takes the
realm component, otherwise a warning is printed and the field becomes
empty. -/
def refGetSSH : RefGet := fun realms k proj =>
  .ok (match dictFind realms k with
       | some r => proj r
       | none => "")

/-- What processing one deviceinfo.txt line yields: skipped (comment,
blank, or wrong field count), processed without an id match (carrying the
new ssh_port local), or a return from the function. -/
inductive LineStep where
  | skip
  | noMatch (ssh_port : Int)
  | stop (r : DevResult) (ssh_port : Int)

/-- Resolution of the secret fields (pwdecrypt.py lines 128-159 and
SSH_pwdecrypt.py lines 146-188), parameterized by the realm-reference
policy and split per field; the username field is either a realm
reference or taken literally. -/
def resolveUserField (refGet : RefGet) (realms : RealmMap) (username0 : String) :
    Except PyErr String :=
  if username0.length > 0 ∧ Py.startsWith username0 "*" then
    refGet realms username0 (fun r => r.username)
  else pure username0

/-- The password field: a star field is a realm reference, any other
nonempty field is an encrypted literal to decrypt, an empty field stays
empty. -/
def resolvePassField (refGet : RefGet) (dec : DecOracle) (realms : RealmMap)
    (password0 : String) : Except PyErr String :=
  if password0.length > 0 ∧ Py.startsWith password0 "*" then
    refGet realms password0 (fun r => r.password)
  else if password0.length > 0 then liftDec dec password0
  else pure password0

/-- The enable-secret field: same shape as the password field, projecting
the realm secret. -/
def resolveSecretField (refGet : RefGet) (dec : DecOracle) (realms : RealmMap)
    (secret0 : String) : Except PyErr String :=
  if secret0.length > 0 ∧ Py.startsWith secret0 "*" then
    refGet realms secret0 (fun r => r.secret)
  else if secret0.length > 0 then liftDec dec secret0
  else pure secret0

/-- The assembled per-line resolution and device-id comparison. -/
def resolveFields (refGet : RefGet) (dec : DecOracle) (realms : RealmMap) (device : String)
    (curdevice ip0 device_type username0 password0 secret0 : String) (ssh_port : Int) :
    Except PyErr LineStep := do
  let ip := if ip0 = "" then curdevice else ip0
  let username ← resolveUserField refGet realms username0
  let password ← resolvePassField refGet dec realms password0
  let secret ← resolveSecretField refGet dec realms secret0
  if curdevice = device then
    if username = "" ∨ password = "" ∨ secret = "" then
      pure (.stop .unresolved ssh_port)
    else
      pure (.stop (.found ⟨ip, 3, device_type, username, password, secret⟩) ssh_port)
  else
    pure (.noMatch ssh_port)

/-- Processing of one deviceinfo.txt line (pwdecrypt.py lines 110-159):
skip comments, blanks and lines without exactly 5 or 6 semicolons; on a
6-semicolon line ssh_port is int() of the seventh field (ValueError
propagates), otherwise ssh_port resets to 22; then the secret fields are
resolved and the device id compared. -/
def processLine (refGet : RefGet) (dec : DecOracle) (realms : RealmMap) (device : String)
    (line : String) : Except PyErr LineStep :=
  let cur := Py.cleanLine line
  if Py.isActiveLine cur then
    let n := Py.semiCount cur
    if n = 5 then
      match Py.splitSemi cur with
      | [curdevice, ip0, device_type, username0, password0, secret0] =>
          resolveFields refGet dec realms device
            curdevice ip0 device_type username0 password0 secret0 22
      | _ => .ok .skip
    else if n = 6 then
      match Py.splitSemi cur with
      | [curdevice, ip0, device_type, username0, password0, secret0, port0] => do
          let ssh_port ← pyInt port0
          resolveFields refGet dec realms device
            curdevice ip0 device_type username0 password0 secret0 ssh_port
      | _ => .ok .skip
    else .ok .skip
  else .ok .skip

/-- The line scan of read_deviceinfo: the ssh_port local survives across
skipped lines and is returned alongside the None result when the list is
exhausted.  The first matching line returns immediately. -/
def scanLines (refGet : RefGet) (dec : DecOracle) (realms : RealmMap) (device : String) :
    List String → Int → Except PyErr (DevResult × Int)
  | [], ssh_port => .ok (.notFound, ssh_port)
  | line :: rest, ssh_port => do
      match ← processLine refGet dec realms device line with
      | .skip => scanLines refGet dec realms device rest ssh_port
      | .noMatch p => scanLines refGet dec realms device rest p
      | .stop r p => pure (r, p)

/-- read_deviceinfo of src/bin/pwdecrypt.py (lines 93-161), over the list
of file lines. -/
def read_deviceinfo (dec : DecOracle) (realms : RealmMap) (device : String)
    (lines : List String) : Except PyErr (DevResult × Int) :=
  scanLines refGetPwd dec realms device lines 22

/-- read_deviceinfo of src/bin/SSH_pwdecrypt.py (lines 103-190), over the
list of file lines. -/
def ssh_read_deviceinfo (dec : DecOracle) (realms : RealmMap) (device : String)
    (lines : List String) : Except PyErr (DevResult × Int) :=
  scanLines refGetSSH dec realms device lines 22

/-- get_credentials of src/bin/pwdecrypt.py (lines 163-183).  envSet and
dirOk model the DO_DEVICE environment variable being set and naming an
accessible directory.  On each early error return this function evaluates
the local ssh_port, which is never assigned in this variant, so Python
raises NameError there. -/
def get_credentials (dec : DecOracle) (envSet dirOk : Bool)
    (credLines devLines : List String) (device : String) :
    Except PyErr (DevResult × Int) :=
  if ¬ envSet then .error (.nameError "ssh_port")
  else if ¬ dirOk then .error (.nameError "ssh_port")
  else do
    let realms? ← read_credentials dec credLines
    match realms? with
    | none => .error (.nameError "ssh_port")
    | some realms => read_deviceinfo dec realms device devLines

/-- Whether a resolution outcome is an uncaught KeyError. -/
def isKeyError {A : Type} : Except PyErr A → Bool
  | .error (.keyError _) => true
  | _ => false

end Store

namespace Oob

/-- One received chunk of bytes: either bytes that decode as text, or
bytes on which decoding raises UnicodeDecodeError. -/
inductive Chunk where
  | utf8 (s : String)
  | nonUtf8
deriving DecidableEq

/-- The input trace of one console line: the chunk each executed poll slot
finds, none meaning recv_ready() was false at that poll.  An exhausted
trace behaves like a channel that is never ready again. -/
def poll : List (Option Chunk) → Option Chunk × List (Option Chunk)
  | [] => (none, [])
  | x :: r => (x, r)

/-- Decoding a chunk: buffer.decode, none meaning the call raises. -/
def decodeChunk : Chunk → Option String
  | .utf8 s => some s
  | .nonUtf8 => none

/-- The placeholder substituted in the retry loop of receive
(src/bin/do-oob-device.py line 129). -/
def placeholder : String := "!!! error non-Unicode character in output"

/-- Outcome of the banner-polling phase. -/
inductive BannerOut where
  | raised
  | connection (buffer : String)
  | done (banner : String)
deriving DecidableEq

/-- Banner polling of receive (src/bin/do-oob-device.py lines 90-106):
up to 3 polls; a chunk that fails to decode raises (no try/except here); a
decoded chunk containing the Connection marker returns that chunk at once;
otherwise the chunk is appended to the banner, and a chunk containing the
password-prompt marker triggers sending the password and one extra poll
whose chunk (decode again unprotected) is also appended. -/
def bannerPolls : Nat → String → List (Option Chunk) →
    BannerOut × List (Option Chunk)
  | 0, banner, t => (.done banner, t)
  | k + 1, banner, t =>
      match poll t with
      | (none, t1) => bannerPolls k banner t1
      | (some ch, t1) =>
          match decodeChunk ch with
          | none => (.raised, t1)
          | some buffer =>
              if Py.pyIn "Connection" buffer then (.connection buffer, t1)
              else
                let banner1 := banner ++ buffer
                if Py.pyIn "assword:" buffer then
                  match poll t1 with
                  | (none, t2) => bannerPolls k banner1 t2
                  | (some ch2, t2) =>
                      match decodeChunk ch2 with
                      | none => (.raised, t2)
                      | some b2 => bannerPolls k (banner1 ++ b2) t2
                else bannerPolls k banner1 t1

/-- The inner 3-poll loop of one retry iteration (src/bin/do-oob-device.py
lines 122-136).  A chunk that fails to decode becomes the placeholder text
(the only protected decode in the file); the login-prompt check runs after
every poll, received or not.  Returns whether the login marker was found,
the output buffer, the ghost list of decoded chunks received so far in the
retry phase, and the rest of the trace. -/
def retryPolls : Nat → String → List String → List (Option Chunk) →
    Bool × String × List String × List (Option Chunk)
  | 0, output, rcvd, t => (false, output, rcvd, t)
  | k + 1, output, rcvd, t =>
      match poll t with
      | (none, t1) =>
          if Py.pyIn "ogin:" output then (true, output, rcvd, t1)
          else retryPolls k output rcvd t1
      | (some ch, t1) =>
          let buffer := (decodeChunk ch).getD placeholder
          let output1 := if output = "" then buffer else output ++ buffer
          if Py.pyIn "ogin:" output1 then (true, output1, rcvd ++ [buffer], t1)
          else retryPolls k output1 (rcvd ++ [buffer]) t1

/-- Outcome of the retry loop: the early return on the login marker, or
the final return of the accumulated output. -/
inductive RetryOut where
  | success (output : String)
  | gaveUp (output : String)
deriving DecidableEq

/-- The retry loop of receive (src/bin/do-oob-device.py lines 117-139):
while tries < 6 and output is empty, send one bare newline and run the
3-poll inner loop.  remaining counts the iterations still allowed
(6 - tries), iters the newline iterations already entered.  Returns the
outcome, the number of iterations entered (= newlines sent), the ghost
list of decoded chunks received, and the rest of the trace. -/
def retryGo : Nat → Nat → List String → List (Option Chunk) →
    RetryOut × Nat × List String × List (Option Chunk)
  | 0, iters, rcvd, t => (.gaveUp "", iters, rcvd, t)
  | remaining + 1, iters, rcvd, t =>
      match retryPolls 3 "" rcvd t with
      | (true, out1, rcvd1, t1) => (.success out1, iters + 1, rcvd1, t1)
      | (false, out1, rcvd1, t1) =>
          if out1 = "" then retryGo remaining (iters + 1) rcvd1 t1
          else (.gaveUp out1, iters + 1, rcvd1, t1)

/-- The five ways receive can end. -/
inductive ReceiveOut where
  | raised
  | connection (buffer : String)
  | noBanner
  | success (output : String)
  | gaveUp (output : String)
deriving DecidableEq

/-- Everything observable about one receive call: its outcome, the number
of retry-loop iterations entered (one bare newline each), the decoded
chunks the retry phase received in arrival order, and the rest of the
input trace. -/
structure ReceiveStats where
  out : ReceiveOut
  newlines : Nat
  rcvdRetry : List String
  rest : List (Option Chunk)
deriving DecidableEq

/-- Packaging of the retry-loop result into the receive observables. -/
def afterRetry : RetryOut × Nat × List String × List (Option Chunk) → ReceiveStats
  | (.success out, n, rcvd, t2) => ⟨.success out, n, rcvd, t2⟩
  | (.gaveUp out, n, rcvd, t2) => ⟨.gaveUp out, n, rcvd, t2⟩

/-- What receive does after its banner phase: on a raised decode error or
a Connection chunk it is already finished; an empty banner is the
no-banner return; otherwise the retry loop runs. -/
def afterBanner : BannerOut × List (Option Chunk) → ReceiveStats
  | (.raised, t1) => ⟨.raised, 0, [], t1⟩
  | (.connection buf, t1) => ⟨.connection buf, 0, [], t1⟩
  | (.done banner, t1) =>
      if banner = "" then ⟨.noBanner, 0, [], t1⟩
      else afterRetry (retryGo 6 0 [] t1)

/-- receive (src/bin/do-oob-device.py lines 86-139): banner phase, then
the empty-banner return, then the retry loop. -/
def receive (t : List (Option Chunk)) : ReceiveStats :=
  afterBanner (bannerPolls 3 "" t)

/-- The Python return value of receive: none when an exception propagates
out of the call. -/
def receiveValue : ReceiveOut → Option String
  | .raised => none
  | .connection b => some b
  | .noBanner => some ""
  | .success o => some o
  | .gaveUp o => some o

/-- The confirmation-prompt polling of connect (src/bin/do-oob-device.py
lines 163-168): up to 2 polls, decode unprotected (none = raise). -/
def promptPolls : Nat → String → List (Option Chunk) →
    Option String × List (Option Chunk)
  | 0, prompt, t => (some prompt, t)
  | k + 1, prompt, t =>
      match poll t with
      | (none, t1) => promptPolls k prompt t1
      | (some ch, t1) =>
          match decodeChunk ch with
          | none => (none, t1)
          | some buf => promptPolls k (prompt ++ buf) t1

/-- Everything observable about one connect call: the returned output
(none when an exception propagates), whether the disconnect escape
sequence and disconnect command were sent, and the retry-iteration count
of the inner receive call. -/
structure ConnectStats where
  result : Option String
  disconnectSent : Bool
  newlines : Nat
deriving DecidableEq

/-- What connect (src/bin/do-oob-device.py lines 141-180) does with the
result of its receive call: an empty output is an inactive line; an output
without the Connection marker triggers the disconnect escape and command,
the 2-poll confirmation read (decode unprotected) and, on a confirm
prompt, an acknowledgement newline plus one more unprotected read. -/
def connectAfter (r : ReceiveStats) : ConnectStats :=
  match receiveValue r.out with
  | none => ⟨none, false, r.newlines⟩
  | some output =>
      if output = "" then ⟨some output, false, r.newlines⟩
      else if !(Py.pyIn "Connection" output) then
        match promptPolls 2 "" r.rest with
        | (none, _) => ⟨none, true, r.newlines⟩
        | (some prompt, t2) =>
            if Py.pyIn "[confirm]" prompt then
              match poll t2 with
              | (none, _) => ⟨some output, true, r.newlines⟩
              | (some ch, _) =>
                  match decodeChunk ch with
                  | none => ⟨none, true, r.newlines⟩
                  | some _ => ⟨some output, true, r.newlines⟩
            else ⟨some output, true, r.newlines⟩
      else ⟨some output, false, r.newlines⟩

/-- connect over the input trace: the receive call followed by the
disconnect handling. -/
def connect (t : List (Option Chunk)) : ConnectStats :=
  connectAfter (receive t)

/-- The output string a retry-loop outcome carries. -/
def retryValue : RetryOut → String
  | .success o => o
  | .gaveUp o => o

end Oob

namespace Lines

/-- Errors row parsing can raise: IndexError from a bad column index,
ValueError from int() on a non-numeric rotary value. -/
inductive LErr where
  | indexError
  | valueError
deriving DecidableEq

/-- Python data[i] with negative-index wraparound; out of range raises
IndexError. -/
def pyIdx (xs : List String) (i : Int) : Except LErr String :=
  let n : Int := xs.length
  let j := if i < 0 then i + n else i
  if 0 ≤ j ∧ j < n then .ok (xs.getD j.toNat "") else .error .indexError

/-- Python int(s) raising ValueError (same rules as Store.pyInt). -/
def pyIntL (s : String) : Except LErr Int :=
  let t := Py.stripWs s
  let core : Int × List Char :=
    match t.data with
    | '+' :: r => (1, r)
    | '-' :: r => (-1, r)
    | r => (1, r)
  if core.2 ≠ [] ∧ core.2.all Char.isDigit then
    .ok (core.1 * (core.2.foldl (fun a c => a * 10 + (c.toNat - 48)) 0 : Nat))
  else
    .error .valueError

/-- Python txtline.split() with no argument: split on whitespace runs,
dropping empty pieces. -/
def pySplitWs (s : String) : List String :=
  go s.data []
where
  go : List Char → List Char → List String
    | [], acc => if acc.isEmpty then [] else [⟨acc.reverse⟩]
    | c :: r, acc =>
        if c.isWhitespace then
          if acc.isEmpty then go r [] else ⟨acc.reverse⟩ :: go r []
        else go r (c :: acc)

/-- Python s.replace(pat, rep) for a nonempty pat: replace non-overlapping
occurrences left to right.  The fuel is the length of the scanned list. -/
def replAux : Nat → List Char → List Char → List Char → List Char
  | 0, _, _, s => s
  | fuel + 1, pat, rep, s =>
      match s with
      | [] => []
      | c :: r =>
          if pat.isPrefixOf s then rep ++ replAux fuel pat rep (s.drop pat.length)
          else c :: replAux fuel pat rep r

/-- Python s.replace(pat, rep) on String. -/
def pyReplace (s pat rep : String) : String :=
  ⟨replAux s.data.length pat.data rep.data s.data⟩

/-- The collapse loop of do_oob_device (src/bin/do-oob-device.py lines
257-258): while a double space remains, replace double spaces by single
ones.  Each pass with an occurrence shortens the string, so the length is
enough fuel. -/
def collapseWs : Nat → String → String
  | 0, s => s
  | k + 1, s => if Py.pyIn "  " s then collapseWs k (pyReplace s "  " " ") else s

/-- The fixed line-number offset of do_oob_device (line 250). -/
def offset : Int := 2000

/-- The column extraction of one candidate show line row
(src/bin/do-oob-device.py lines 259-271), applied to the split columns:
the rotary column sits 7 columns from the end (Python negative indexing
wraps); a rotary placeholder dash falls back to the Line column; the line
id is the offset plus the rotary number; rows whose interface name has no
slash are dropped (none). -/
def rowFromData (data : List String) : Except LErr (Option (String × String)) :=
  let nCols : Int := data.length
  do
    let tty ← pyIdx data 0
    let interface := "As" ++ tty
    let lineCol ← pyIdx data 1
    let roty0 ← pyIdx data (nCols - 7)
    let roty := if roty0 = "-" then lineCol else roty0
    let rotynum ← pyIntL roty
    let lineId := Py.intToStr (offset + rotynum)
    if Py.pyIn "/" interface then pure (some (lineId, interface))
    else pure none

/-- The full row processing: the TTY-marker guard and the text cleanup
(lstrip, star removal for the in-use marker, double-space collapse,
whitespace split), then the column extraction. -/
def processRow (txtline : String) : Except LErr (Option (String × String)) :=
  if !(Py.pyIn "TTY" txtline) then .ok none
  else
    let t1 := Py.lstrip txtline
    let t2 := if Py.startsWith t1 "*" then pyReplace t1 "*" "" else t1
    let t3 := collapseWs t2.length t2
    rowFromData (pySplitWs t3)

end Lines

namespace Ifname

/-- Full-match test for the patterns caret-0-slash-digits-dollar and
caret-3-slash-digits-dollar of re.match: first character, a slash, then
one or more digits up to the end. -/
def slashNumCore (c0 : Char) (l : List Char) : Bool :=
  match l with
  | a :: b :: rest => a = c0 && b = '/' && !rest.isEmpty && rest.all (fun c => c.isDigit)
  | _ => false

/-- re.match of the anchored pattern against a string: the dollar anchor
also matches just before a single trailing newline. -/
def reMatchSlashNum (c0 : Char) (s : String) : Bool :=
  slashNumCore c0 s.data ||
    (match s.data.getLast? with
     | some c => decide (c = Char.ofNat 10) && slashNumCore c0 s.data.dropLast
     | none => false)

/-- Python s.lower().startswith(p), with lowercasing modelled per
character (the names involved are ASCII). -/
def lowerStartsWith (s p : String) : Bool :=
  p.data.isPrefixOf (s.data.map Char.toLower)

/-- short_ifName of src/bin/get-snmp-mac.py lines 79-110: vendor long
names shorten, the switch prefix becomes Et, Ubiquiti 0-slash and 3-slash
patterns are rewritten, and names starting (case-insensitively) with vl or
br-vlan lose their vlan markers. -/
def short_ifName (ifName : String) : String :=
  let s1 := Lines.pyReplace ifName "TenGigabitEthernet" "Te"
  let s2 := Lines.pyReplace s1 "GigabitEthernet" "Gi"
  let s3 := Lines.pyReplace s2 "FastEthernet" "Fa"
  let s4 := Lines.pyReplace s3 "Ethernet" "Et"
  let s5 := Lines.pyReplace s4 "Management" "Ma"
  let s6 := Lines.pyReplace s5 "Port-channel" "Po"
  let s7 := Lines.pyReplace s6 "port-channel" "Po"
  let s8 := Lines.pyReplace s7 "switch" "Et"
  let s9 := if reMatchSlashNum '0' s8 then "Et" ++ s8 else s8
  let s10 := if reMatchSlashNum '3' s9 then Lines.pyReplace s9 "3/" "Po" else s9
  if lowerStartsWith s10 "vl" then
    let a := Lines.pyReplace s10 "Vlan" ""
    let b := Lines.pyReplace a "Vl" ""
    Lines.pyReplace b "VLAN- " ""
  else if lowerStartsWith s10 "br-vlan" then
    Lines.pyReplace s10 "br-vlan" ""
  else s10

/-- The ignore set of src/bin/get-snmp-arp.py lines 48-52 (a Python set:
duplicates collapse). -/
def ignore_ifNames : List String := ["bme0", "Juniper", "jsrv", "lo0"]

/-- ignore_ifName of src/bin/get-snmp-arp.py lines 79-86. -/
def ignore_ifName (ifName : String) : Bool :=
  ignore_ifNames.any (fun p => Py.startsWith ifName p)

/-- short_ifName of src/bin/get-snmp-arp.py lines 88-126: the same
transformations (its extra vlan-dot branch only prints a debug message),
followed by the ignore filter that blanks ignored names. -/
def short_ifName_arp (ifName : String) : String :=
  let r := short_ifName ifName
  if ignore_ifName r then "" else r

/-- No normalization rule of short_ifName applies to this name: none of
the replaced substrings occur, neither Ubiquiti pattern matches, and the
name has neither vlan prefix. -/
def ruleFree (s : String) : Bool :=
  !(Py.pyIn "TenGigabitEthernet" s) && !(Py.pyIn "GigabitEthernet" s) &&
  !(Py.pyIn "FastEthernet" s) && !(Py.pyIn "Ethernet" s) &&
  !(Py.pyIn "Management" s) && !(Py.pyIn "Port-channel" s) &&
  !(Py.pyIn "port-channel" s) && !(Py.pyIn "switch" s) &&
  !(reMatchSlashNum '0' s) && !(reMatchSlashNum '3' s) &&
  !(lowerStartsWith s "vl") && !(lowerStartsWith s "br-vlan")

end Ifname

/-! ## Theorems -/

namespace Crypto

theorem utf8Decode_encode (s : String) : utf8Decode (utf8Encode s) = some s := by
  unfold utf8Decode utf8Encode
  simp only [List.map_map]
  have h : (Char.toNat ∘ Char.ofNat ∘ Char.toNat) = Char.toNat := by
    funext c
    simp [Function.comp, Char.ofNat_toNat]
  rw [h, if_pos rfl]
  have h2 : (Char.ofNat ∘ Char.toNat) = id := by
    funext c
    simp [Function.comp, Char.ofNat_toNat]
  rw [h2]
  cases s
  simp

theorem utf8Encode_inj {a b : String} (h : utf8Encode a = utf8Encode b) : a = b := by
  have ha := utf8Decode_encode a
  have hb := utf8Decode_encode b
  rw [h] at ha
  rw [ha] at hb
  exact Option.some_injective _ hb

theorem mactag_inj {k1 k2 : String} {v1 v2 t1 t2 : Nat} {b1 b2 : List Nat}
    (h : mactag k1 v1 t1 b1 = mactag k2 v2 t2 b2) :
    k1 = k2 ∧ v1 = v2 ∧ t1 = t2 ∧ b1 = b2 := by
  unfold mactag at h
  have hlen : k1.length = k2.length := (List.cons.injEq _ _ _ _).mp h |>.1
  have htail := (List.cons.injEq _ _ _ _).mp h |>.2
  have hl1 : (utf8Encode k1).length = (utf8Encode k2).length := by
    unfold utf8Encode
    rw [List.length_map, List.length_map]
    exact hlen
  have := List.append_inj htail hl1
  obtain ⟨henc, hrest⟩ := this
  refine ⟨utf8Encode_inj henc, ?_, ?_, ?_⟩
  · exact ((List.cons.injEq _ _ _ _).mp hrest).1
  · exact ((List.cons.injEq _ _ _ _).mp ((List.cons.injEq _ _ _ _).mp hrest).2).1
  · exact ((List.cons.injEq _ _ _ _).mp ((List.cons.injEq _ _ _ _).mp hrest).2).2

theorem cryptkeys_agree : CRYPTKEY_pwencrypt = CRYPTKEY_pwdecrypt := rfl

end Crypto

/-- C1: For every secret string s, decrypting the token produced by
encrypting s returns s unchanged; decrypting any tampered token, and any
token produced under a different key, fails with an integrity error rather
than returning a value. -/
theorem C1_roundtrip_and_integrity :
    (∀ (s : String) (ts : Nat),
      Crypto.decrypt_password (.token (Crypto.encrypt_password ts s)) = .ok s) ∧
    (∀ t : Crypto.FernetToken, Crypto.tampered t →
      Crypto.decrypt_password (.token t) = .error .integrityError) ∧
    (∀ (k : String) (ts : Nat) (pt : List Nat), k ≠ Crypto.CRYPTKEY_pwdecrypt →
      Crypto.decrypt_password (.token (Crypto.fernetEncrypt k ts pt)) =
        .error .integrityError) := by
  refine ⟨?_, ?_, ?_⟩
  · intro s ts
    simp [Crypto.decrypt_password, Crypto.encrypt_password, Crypto.fernetEncrypt,
      Crypto.fernetDecrypt, Crypto.cryptkeys_agree, Crypto.utf8Decode_encode]
  · intro t ht
    have hneg : ¬ (t.version = 128 ∧
        t.tag = Crypto.mactag Crypto.CRYPTKEY_pwdecrypt t.version t.timestamp t.body) := by
      intro hc
      rcases ht with h | h
      · exact h hc.1
      · exact h hc.2
    simp only [Crypto.decrypt_password, Crypto.fernetDecrypt]
    rw [if_neg hneg]
  · intro k ts pt hk
    have hneg : ¬ (True ∧
        Crypto.mactag k 128 ts pt = Crypto.mactag Crypto.CRYPTKEY_pwdecrypt 128 ts pt) := by
      intro hc
      exact hk (Crypto.mactag_inj hc.2).1
    simp only [Crypto.decrypt_password, Crypto.fernetEncrypt, Crypto.fernetDecrypt]
    rw [if_neg hneg]

/-- C1 witness: the round trip at a concrete secret, a concrete tampered
token rejected, and a concrete wrong-key token rejected. -/
theorem C1_roundtrip_and_integrity_witness :
    Crypto.decrypt_password (.token (Crypto.encrypt_password 7 "hunter2")) = .ok "hunter2" ∧
    Crypto.decrypt_password (.token ⟨128, 7, [1, 2, 3], []⟩) = .error .integrityError ∧
    Crypto.decrypt_password (.token (Crypto.fernetEncrypt "wrongkey" 7 [1, 2, 3])) =
      .error .integrityError :=
  ⟨C1_roundtrip_and_integrity.1 "hunter2" 7,
   C1_roundtrip_and_integrity.2.1 ⟨128, 7, [1, 2, 3], []⟩ (Or.inr (by decide)),
   C1_roundtrip_and_integrity.2.2 "wrongkey" 7 [1, 2, 3] (by decide)⟩

/-- C10: the device scan resolves (realm-lookup or decrypt) the secret
fields of every syntactically valid line before comparing that line's
device id to the requested one, in file order: if processing the first
line raises, the whole scan raises that error no matter what follows, and
if the first line resolves without matching, the scan continues on the
rest.  This is proved for any realm-reference policy, so it covers both
pwdecrypt.py and SSH_pwdecrypt.py. -/
theorem C10_fields_resolved_before_match :
    ∀ (refGet : Store.RefGet) (dec : Store.DecOracle) (realms : Store.RealmMap)
      (device line : String) (rest : List String) (port0 : Int),
      (∀ e, Store.processLine refGet dec realms device line = .error e →
        Store.scanLines refGet dec realms device (line :: rest) port0 = .error e) ∧
      (∀ p, Store.processLine refGet dec realms device line = .ok (.noMatch p) →
        Store.scanLines refGet dec realms device (line :: rest) port0 =
          Store.scanLines refGet dec realms device rest p) := by
  intro refGet dec realms device line rest port0
  constructor
  · intro e h
    simp [Store.scanLines, h, Bind.bind, Except.bind]
  · intro p h
    simp [Store.scanLines, h, Bind.bind, Except.bind]

/-- C10 witness: a first line for an unrelated device with a bad encrypted
literal makes the scan fail even though the requested device appears, with
resolvable fields, on the next line. -/
theorem C10_fields_resolved_before_match_witness :
    Store.scanLines Store.refGetPwd (fun s => if s = "BAD" then none else some "x")
      [] "r1" ["other;;ios;U;BAD;S", "r1;;ios;U;P;S"] 22 = .error .invalidToken :=
  (C10_fields_resolved_before_match Store.refGetPwd
    (fun s => if s = "BAD" then none else some "x") [] "r1"
    "other;;ios;U;BAD;S" ["r1;;ios;U;P;S"] 22).1 .invalidToken rfl

/-- C4 counterexample: with an empty credentials file (zero realms parsed)
and a device whose secret fields are all encrypted literals needing no
realm, resolution does not succeed - get_credentials of pwdecrypt.py
fails, raising NameError on the unbound ssh_port local at its early
return. -/
theorem C4_counterexample :
    Store.read_credentials (fun s => some ("D" ++ s)) [] = .ok none ∧
    Store.get_credentials (fun s => some ("D" ++ s)) true true []
      ["d1;10.0.0.1;ios;U;P;S"] "d1" = .error (.nameError "ssh_port") :=
  ⟨rfl, rfl⟩

/-- C4 as amended: a realm-table load that parses zero realm entries is
fatal to resolution, not an empty-but-valid table: whenever
read_credentials returns None, get_credentials of pwdecrypt.py fails for
every device (raising NameError on the unbound ssh_port at the early
return), even a device that references no realm. -/
theorem C4_zero_realms_fatal :
    ∀ (dec : Store.DecOracle) (credLines devLines : List String) (device : String),
      Store.read_credentials dec credLines = .ok none →
      Store.get_credentials dec true true credLines devLines device =
        .error (.nameError "ssh_port") := by
  intro dec credLines devLines device h
  simp [Store.get_credentials, h, Bind.bind, Except.bind]

/-- C4 witness: the amended claim applied to the empty realm table. -/
theorem C4_zero_realms_fatal_witness :
    Store.get_credentials (fun s => some ("D" ++ s)) true true []
      ["d1;10.0.0.1;ios;U;P;S"] "d1" = .error (.nameError "ssh_port") :=
  C4_zero_realms_fatal (fun s => some ("D" ++ s)) [] ["d1;10.0.0.1;ios;U;P;S"] "d1" rfl

/-- C3 counterexample: with realm table NET1;admin;ENC;* (ENC decrypting
to pw0) and device table r1;;ios;*NET1;;*, resolving r1 does not succeed:
the code looks the realm up under the full field value including its
leading star, so realms[*NET1] raises KeyError. -/
theorem C3_counterexample :
    Store.get_credentials (fun s => if s = "ENC" then some "pw0" else none) true true
      ["NET1;admin;ENC;*"] ["r1;;ios;*NET1;;*"] "r1" = .error (.keyError "*NET1") := rfl

/-- C5 counterexample: in pwdecrypt.py an unknown realm reference is not
downgraded to empty - the lookup raises an uncaught KeyError, aborting
resolution. -/
theorem C5_counterexample :
    Store.read_deviceinfo (fun _ => some "x") [("NET1", ⟨"a", "b", "c"⟩)] "r1"
      ["r1;a.b.c;ios;*BOGUS;PW;SEC"] = .error (.keyError "*BOGUS") := rfl

/-- C6 counterexample: a byte-decoding failure in the banner phase is
fatal to the line: receive raises (there is no try/except around that
decode) and connect propagates the exception. -/
theorem C6_counterexample :
    (Oob.receive [some Oob.Chunk.nonUtf8]).out = .raised ∧
    (Oob.connect [some Oob.Chunk.nonUtf8]).result = none :=
  ⟨rfl, rfl⟩

/-- C6 as amended: only the retry-loop decode is protected.  A decoding
failure on the very first banner poll raises out of receive whatever
follows; a decoding failure in the retry loop substitutes the placeholder
text and the line goes on to a normal outcome; a decoding failure in the
disconnect-confirmation read raises out of connect (after the disconnect
sequence was already sent). -/
theorem C6_decode_failure_phases :
    (∀ rest : List (Option Oob.Chunk),
      (Oob.receive (some Oob.Chunk.nonUtf8 :: rest)).out = .raised) ∧
    (Oob.receive [some (Oob.Chunk.utf8 "banner"), none, none, some Oob.Chunk.nonUtf8]).out =
      .gaveUp Oob.placeholder ∧
    (Oob.connect [some (Oob.Chunk.utf8 "hello"), none, none, some (Oob.Chunk.utf8 "xyz"),
        none, none, some Oob.Chunk.nonUtf8]).result = none ∧
    (Oob.connect [some (Oob.Chunk.utf8 "hello"), none, none, some (Oob.Chunk.utf8 "xyz"),
        none, none, some Oob.Chunk.nonUtf8]).disconnectSent = true := by
  refine ⟨fun rest => rfl, rfl, rfl, rfl⟩

/-- C2 counterexample: the retry loop runs while tries < 6 and the output
buffer is empty, so a first iteration that accumulates output without the
login marker ends the loop at once: after one single iteration the line
ends unsuccessfully (not the 6 iterations the claim requires before
Closed(Timeout)). -/
theorem C2_counterexample :
    (Oob.receive [some (Oob.Chunk.utf8 "banner"), none, none,
        some (Oob.Chunk.utf8 "abc")]).out = .gaveUp "abc" ∧
    (Oob.receive [some (Oob.Chunk.utf8 "banner"), none, none,
        some (Oob.Chunk.utf8 "abc")]).newlines = 1 ∧
    Py.pyIn "ogin:" "abc" = false :=
  ⟨rfl, rfl, rfl⟩

/-- C9 counterexample: the in-progress-call check is applied to each
received chunk, not to the accumulated banner buffer.  When the
Connection marker is split across two chunks, the banner buffer contains
it within the first 3 polls, yet the line does not end in
Closed(Inactive): a retry iteration runs and the disconnect sequence is
sent. -/
theorem C9_counterexample :
    Oob.bannerPolls 3 "" [some (Oob.Chunk.utf8 "Conn"), some (Oob.Chunk.utf8 "ection"),
        none, some (Oob.Chunk.utf8 "abc")] =
      (.done "Connection", [some (Oob.Chunk.utf8 "abc")]) ∧
    Py.pyIn "Connection" "Connection" = true ∧
    (Oob.receive [some (Oob.Chunk.utf8 "Conn"), some (Oob.Chunk.utf8 "ection"),
        none, some (Oob.Chunk.utf8 "abc")]).newlines = 1 ∧
    (Oob.connect [some (Oob.Chunk.utf8 "Conn"), some (Oob.Chunk.utf8 "ection"),
        none, some (Oob.Chunk.utf8 "abc")]).disconnectSent = true :=
  ⟨rfl, rfl, rfl, rfl⟩

/-- C8 counterexample: interface-name normalization is not idempotent, in
either variant: VlEtherVlannet normalizes to Ethernet, which normalizes
further to Et. -/
theorem C8_counterexample :
    Ifname.short_ifName "VlEtherVlannet" = "Ethernet" ∧
    Ifname.short_ifName (Ifname.short_ifName "VlEtherVlannet") ≠
      Ifname.short_ifName "VlEtherVlannet" ∧
    Ifname.short_ifName_arp (Ifname.short_ifName_arp "VlEtherVlannet") ≠
      Ifname.short_ifName_arp "VlEtherVlannet" := by
  refine ⟨rfl, ?_, ?_⟩ <;> decide

/-- Any chunk the banner phase returns through its Connection early exit
was itself tested to contain the Connection marker. -/
theorem bannerPolls_connection_pyIn :
    ∀ (k : Nat) (banner : String) (t : List (Option Oob.Chunk)) (buf : String)
      (t1 : List (Option Oob.Chunk)),
      Oob.bannerPolls k banner t = (.connection buf, t1) →
      Py.pyIn "Connection" buf = true := by
  intro k
  induction k with
  | zero =>
      intro banner t buf t1 h
      simp [Oob.bannerPolls] at h
  | succ k ih =>
      intro banner t buf t1 h
      unfold Oob.bannerPolls at h
      cases t with
      | nil =>
          simp only [Oob.poll] at h
          exact ih _ _ _ _ h
      | cons x r =>
          cases x with
          | none =>
              simp only [Oob.poll] at h
              exact ih _ _ _ _ h
          | some ch =>
              cases ch with
              | nonUtf8 => simp [Oob.poll, Oob.decodeChunk] at h
              | utf8 s =>
                  simp only [Oob.poll, Oob.decodeChunk] at h
                  by_cases hc : Py.pyIn "Connection" s = true
                  · rw [if_pos hc] at h
                    obtain ⟨h1, h2⟩ := Prod.mk.injEq .. ▸ h
                    cases h1
                    exact hc
                  · rw [if_neg hc] at h
                    by_cases hp : Py.pyIn "assword:" s = true
                    · rw [if_pos hp] at h
                      cases r with
                      | nil =>
                          simp only [Oob.poll] at h
                          exact ih _ _ _ _ h
                      | cons y r2 =>
                          cases y with
                          | none =>
                              simp only [Oob.poll] at h
                              exact ih _ _ _ _ h
                          | some ch2 =>
                              cases ch2 with
                              | nonUtf8 => simp [Oob.poll, Oob.decodeChunk] at h
                              | utf8 s2 =>
                                  simp only [Oob.poll, Oob.decodeChunk] at h
                                  exact ih _ _ _ _ h
                    · rw [if_neg hp] at h
                      exact ih _ _ _ _ h

/-- C9 as amended: the in-progress-call check runs per received chunk.
Whenever receive ends in the Connection outcome, the returned chunk itself
contains the marker, zero retry-loop iterations were entered, and connect
returns that chunk without ever sending the disconnect escape sequence or
disconnect command. -/
theorem C9_connection_is_per_chunk :
    ∀ (t : List (Option Oob.Chunk)) (buf : String),
      (Oob.receive t).out = .connection buf →
      Py.pyIn "Connection" buf = true ∧
      (Oob.receive t).newlines = 0 ∧
      (Oob.connect t).result = some buf ∧
      (Oob.connect t).disconnectSent = false := by
  intro t buf h
  rcases hb : Oob.bannerPolls 3 "" t with ⟨bo, t1⟩
  have hrec : Oob.receive t = Oob.afterBanner (bo, t1) := by
    unfold Oob.receive
    rw [hb]
  cases bo with
  | raised =>
      rw [hrec] at h
      simp [Oob.afterBanner] at h
  | done banner =>
      rw [hrec] at h
      simp only [Oob.afterBanner] at h
      by_cases hbn : banner = ""
      · rw [if_pos hbn] at h
        simp at h
      · rw [if_neg hbn] at h
        rcases hr : Oob.retryGo 6 0 [] t1 with ⟨ro, n, rc, t2⟩
        rw [hr] at h
        cases ro <;> simp [Oob.afterRetry] at h
  | connection b =>
      rw [hrec] at h
      simp only [Oob.afterBanner] at h
      cases h
      have hpy : Py.pyIn "Connection" buf = true :=
        bannerPolls_connection_pyIn 3 "" t buf t1 hb
      have hne : buf ≠ "" := by
        intro he
        rw [he] at hpy
        exact absurd hpy (by decide)
      have hrec2 : Oob.receive t = ⟨.connection buf, 0, [], t1⟩ := by
        rw [hrec]
        simp [Oob.afterBanner]
      refine ⟨hpy, ?_, ?_, ?_⟩
      · rw [hrec2]
      · show (Oob.connectAfter (Oob.receive t)).result = some buf
        rw [hrec2]
        simp [Oob.connectAfter, Oob.receiveValue, hne, hpy]
      · show (Oob.connectAfter (Oob.receive t)).disconnectSent = false
        rw [hrec2]
        simp [Oob.connectAfter, Oob.receiveValue, hne, hpy]

/-- C9 witness: a single banner chunk containing the Connection marker
ends the line at once, with no disconnect sequence sent. -/
theorem C9_connection_is_per_chunk_witness :
    Py.pyIn "Connection" "Connection to host" = true ∧
    (Oob.receive [some (Oob.Chunk.utf8 "Connection to host")]).newlines = 0 ∧
    (Oob.connect [some (Oob.Chunk.utf8 "Connection to host")]).result =
      some "Connection to host" ∧
    (Oob.connect [some (Oob.Chunk.utf8 "Connection to host")]).disconnectSent = false :=
  C9_connection_is_per_chunk [some (Oob.Chunk.utf8 "Connection to host")]
    "Connection to host" rfl

/-- Concatenation distributes over list append. -/
theorem concatAll_append (a b : List String) :
    Py.concatAll (a ++ b) = Py.concatAll a ++ Py.concatAll b := by
  induction a with
  | nil => simp [Py.concatAll]
  | cons s r ih => simp [Py.concatAll, ih, String.append_assoc]

/-- The inner retry polls only append: the chunk list grows by some new
decoded chunks and the output buffer grows by exactly their
concatenation. -/
theorem retryPolls_concat :
    ∀ (k : Nat) (out : String) (rcvd : List String) (t : List (Option Oob.Chunk))
      (f : Bool) (out2 : String) (rcvd2 : List String) (t2 : List (Option Oob.Chunk)),
      Oob.retryPolls k out rcvd t = (f, out2, rcvd2, t2) →
      ∃ new, rcvd2 = rcvd ++ new ∧ out2 = out ++ Py.concatAll new := by
  intro k
  induction k with
  | zero =>
      intro out rcvd t f out2 rcvd2 t2 h
      simp only [Oob.retryPolls] at h
      cases h
      exact ⟨[], by simp [Py.concatAll]⟩
  | succ k ih =>
      intro out rcvd t f out2 rcvd2 t2 h
      unfold Oob.retryPolls at h
      have step :
          ∀ (ch : Oob.Chunk) (t1 : List (Option Oob.Chunk)),
            (let buffer := (Oob.decodeChunk ch).getD Oob.placeholder
             let output1 := if out = "" then buffer else out ++ buffer
             if Py.pyIn "ogin:" output1 = true then
               (true, output1, rcvd ++ [buffer], t1)
             else Oob.retryPolls k output1 (rcvd ++ [buffer]) t1) = (f, out2, rcvd2, t2) →
            ∃ new, rcvd2 = rcvd ++ new ∧ out2 = out ++ Py.concatAll new := by
        intro ch t1 h1
        set b := (Oob.decodeChunk ch).getD Oob.placeholder with hbdef
        have hout1 : (if out = "" then b else out ++ b) = out ++ b := by
          by_cases he : out = ""
          · simp [he]
          · rw [if_neg he]
        dsimp only [] at h1
        rw [hout1] at h1
        by_cases hl : Py.pyIn "ogin:" (out ++ b) = true
        · rw [if_pos hl] at h1
          cases h1
          exact ⟨[b], rfl, by simp [Py.concatAll]⟩
        · rw [if_neg hl] at h1
          obtain ⟨new2, hr2, ho2⟩ := ih _ _ _ _ _ _ _ h1
          refine ⟨b :: new2, ?_, ?_⟩
          · rw [hr2]
            simp
          · rw [ho2]
            simp [Py.concatAll, String.append_assoc]
      cases t with
      | nil =>
          simp only [Oob.poll] at h
          by_cases hl : Py.pyIn "ogin:" out = true
          · rw [if_pos hl] at h
            cases h
            exact ⟨[], by simp [Py.concatAll]⟩
          · rw [if_neg hl] at h
            exact ih _ _ _ _ _ _ _ h
      | cons x r =>
          cases x with
          | none =>
              simp only [Oob.poll] at h
              by_cases hl : Py.pyIn "ogin:" out = true
              · rw [if_pos hl] at h
                cases h
                exact ⟨[], by simp [Py.concatAll]⟩
              · rw [if_neg hl] at h
                exact ih _ _ _ _ _ _ _ h
          | some ch =>
              simp only [Oob.poll] at h
              exact step ch r h

/-- The login-marker flag of the inner retry polls is exact: a true flag
means the final output contains the marker, a false flag means it does not
(provided it did not already on entry). -/
theorem retryPolls_login :
    ∀ (k : Nat) (out : String) (rcvd : List String) (t : List (Option Oob.Chunk))
      (f : Bool) (out2 : String) (rcvd2 : List String) (t2 : List (Option Oob.Chunk)),
      Oob.retryPolls k out rcvd t = (f, out2, rcvd2, t2) →
      (f = true → Py.pyIn "ogin:" out2 = true) ∧
      (f = false → Py.pyIn "ogin:" out = false → Py.pyIn "ogin:" out2 = false) := by
  intro k
  induction k with
  | zero =>
      intro out rcvd t f out2 rcvd2 t2 h
      simp only [Oob.retryPolls] at h
      cases h
      exact ⟨fun hf => absurd hf (by simp), fun _ h0 => h0⟩
  | succ k ih =>
      intro out rcvd t f out2 rcvd2 t2 h
      unfold Oob.retryPolls at h
      have noRecv :
          (if Py.pyIn "ogin:" out = true then (true, out, rcvd, t2) = (f, out2, rcvd2, t2)
           else True) → True := fun _ => trivial
      have step :
          ∀ (ch : Oob.Chunk) (t1 : List (Option Oob.Chunk)),
            (let buffer := (Oob.decodeChunk ch).getD Oob.placeholder
             let output1 := if out = "" then buffer else out ++ buffer
             if Py.pyIn "ogin:" output1 = true then
               (true, output1, rcvd ++ [buffer], t1)
             else Oob.retryPolls k output1 (rcvd ++ [buffer]) t1) = (f, out2, rcvd2, t2) →
            (f = true → Py.pyIn "ogin:" out2 = true) ∧
            (f = false → Py.pyIn "ogin:" out = false → Py.pyIn "ogin:" out2 = false) := by
        intro ch t1 h1
        set b := (Oob.decodeChunk ch).getD Oob.placeholder with hbdef
        dsimp only [] at h1
        by_cases hl : Py.pyIn "ogin:" (if out = "" then b else out ++ b) = true
        · rw [if_pos hl] at h1
          cases h1
          exact ⟨fun _ => hl, fun hf => absurd hf (by simp)⟩
        · rw [if_neg hl] at h1
          have := ih _ _ _ _ _ _ _ h1
          exact ⟨this.1, fun hf _ => this.2 hf (Bool.not_eq_true _ ▸ hl)⟩
      cases t with
      | nil =>
          simp only [Oob.poll] at h
          by_cases hl : Py.pyIn "ogin:" out = true
          · rw [if_pos hl] at h
            cases h
            exact ⟨fun _ => hl, fun hf => absurd hf (by simp)⟩
          · rw [if_neg hl] at h
            have := ih _ _ _ _ _ _ _ h
            exact ⟨this.1, fun hf _ => this.2 hf (Bool.not_eq_true _ ▸ hl)⟩
      | cons x r =>
          cases x with
          | none =>
              simp only [Oob.poll] at h
              by_cases hl : Py.pyIn "ogin:" out = true
              · rw [if_pos hl] at h
                cases h
                exact ⟨fun _ => hl, fun hf => absurd hf (by simp)⟩
              · rw [if_neg hl] at h
                have := ih _ _ _ _ _ _ _ h
                exact ⟨this.1, fun hf _ => this.2 hf (Bool.not_eq_true _ ▸ hl)⟩
          | some ch =>
              simp only [Oob.poll] at h
              exact step ch r h

/-- Full specification of the retry loop: the received chunks accumulate,
the carried value is exactly their concatenation, the iteration count is
bounded by the remaining budget, the whole budget runs only when nothing
was received, and the outcome flag reflects the login marker. -/
theorem retryGo_spec :
    ∀ (rem iters : Nat) (rcvd : List String) (t : List (Option Oob.Chunk))
      (r : Oob.RetryOut) (n : Nat) (rcvd2 : List String) (t2 : List (Option Oob.Chunk)),
      Oob.retryGo rem iters rcvd t = (r, n, rcvd2, t2) →
      ∃ new, rcvd2 = rcvd ++ new ∧ Oob.retryValue r = Py.concatAll new ∧
        iters ≤ n ∧ n ≤ iters + rem ∧
        (r = .gaveUp "" → n = iters + rem) ∧
        (∀ out, r = .success out → Py.pyIn "ogin:" out = true) ∧
        (∀ out, r = .gaveUp out → Py.pyIn "ogin:" out = false) := by
  intro rem
  induction rem with
  | zero =>
      intro iters rcvd t r n rcvd2 t2 h
      simp only [Oob.retryGo] at h
      cases h
      refine ⟨[], by simp, rfl, le_refl _, by omega, fun _ => by omega, ?_, ?_⟩
      · intro out hc
        cases hc
      · intro out hc
        cases hc
        decide
  | succ rem ih =>
      intro iters rcvd t r n rcvd2 t2 h
      unfold Oob.retryGo at h
      rcases hp : Oob.retryPolls 3 "" rcvd t with ⟨f, out1, rcvd1, t1⟩
      rw [hp] at h
      obtain ⟨new1, hr1, ho1⟩ := retryPolls_concat 3 "" rcvd t f out1 rcvd1 t1 hp
      have ho1v : out1 = Py.concatAll new1 := by simpa using ho1
      cases f with
      | true =>
          cases h
          refine ⟨new1, hr1, ho1v, by omega, by omega, ?_, ?_, ?_⟩
          · intro hc
            cases hc
          · intro out hc
            cases hc
            exact (retryPolls_login 3 "" rcvd t true out1 _ _ hp).1 rfl
          · intro out hc
            cases hc
      | false =>
          replace h : (if out1 = "" then Oob.retryGo rem (iters + 1) rcvd1 t1
              else (Oob.RetryOut.gaveUp out1, iters + 1, rcvd1, t1)) =
              (r, n, rcvd2, t2) := h
          by_cases hout : out1 = ""
          · rw [if_pos hout] at h
            obtain ⟨new2, hr2, hv2, hle1, hle2, hg, hs, hgv⟩ := ih _ _ _ _ _ _ _ h
            refine ⟨new1 ++ new2, ?_, ?_, by omega, by omega, ?_, hs, hgv⟩
            · rw [hr2, hr1, List.append_assoc]
            · rw [hv2, concatAll_append, ← ho1v, hout]
              simp
            · intro hc
              have := hg hc
              omega
          · rw [if_neg hout] at h
            cases h
            refine ⟨new1, hr1, ho1v, by omega, by omega, ?_, ?_, ?_⟩
            · intro hc
              cases hc
              exact absurd rfl hout
            · intro out hc
              cases hc
            · intro out hc
              cases hc
              exact (retryPolls_login 3 "" rcvd t false out1 _ _ hp).2 rfl (by decide)

/-- C2 as amended: in the retry loop the output buffer is always the exact
concatenation, in arrival order, of the decoded chunks received during the
retry phase (the placeholder standing in for undecodable ones); at most 6
newline iterations run; a success outcome contains the login marker and a
give-up outcome does not; and the full 6-iteration budget runs only in the
case where the final output is empty - an iteration that accumulates any
nonempty output without the login marker ends the loop immediately, which
the counterexample shows happening after one iteration. -/
theorem C2_retry_loop_behavior :
    ∀ (t : List (Option Oob.Chunk)) (r : Oob.RetryOut) (n : Nat)
      (rcvd : List String) (t2 : List (Option Oob.Chunk)),
      Oob.retryGo 6 0 [] t = (r, n, rcvd, t2) →
      Oob.retryValue r = Py.concatAll rcvd ∧
      n ≤ 6 ∧
      (∀ out, r = .success out → Py.pyIn "ogin:" out = true) ∧
      (∀ out, r = .gaveUp out → Py.pyIn "ogin:" out = false) ∧
      (r = .gaveUp "" → n = 6) := by
  intro t r n rcvd t2 h
  obtain ⟨new, hr, hv, _, hle, hg, hs, hgv⟩ := retryGo_spec 6 0 [] t r n rcvd t2 h
  have hnew : rcvd = new := by simpa using hr
  subst hnew
  exact ⟨hv, by omega, hs, hgv, fun hc => by have := hg hc; omega⟩

/-- C2 witness: one chunk carrying the login marker ends the loop in
success after a single iteration, with the buffer equal to that chunk. -/
theorem C2_retry_loop_behavior_witness :
    Oob.retryValue (.success "login:") = Py.concatAll ["login:"] ∧
    Py.pyIn "ogin:" "login:" = true := by
  have h := C2_retry_loop_behavior [some (Oob.Chunk.utf8 "login:")]
    (.success "login:") 1 ["login:"] [] rfl
  exact ⟨h.1, h.2.2.1 "login:" rfl⟩


/-- Any successfully extracted row carries the line id str(offset +
rotary number) and an interface name containing the slash. -/
theorem rowFromData_spec :
    ∀ (data : List String) (lineId interface : String),
      Lines.rowFromData data = .ok (some (lineId, interface)) →
      (∃ rotynum : Int, lineId = Py.intToStr (Lines.offset + rotynum)) ∧
      Py.pyIn "/" interface = true := by
  intro data lineId interface h
  unfold Lines.rowFromData at h
  cases e0 : Lines.pyIdx data 0 with
  | error e =>
      rw [e0] at h
      simp [Bind.bind, Except.bind] at h
  | ok tty =>
      rw [e0] at h
      simp only [Bind.bind, Except.bind] at h
      cases e1 : Lines.pyIdx data 1 with
      | error e =>
          rw [e1] at h
          simp at h
      | ok lineCol =>
          rw [e1] at h
          dsimp only [] at h
          cases e2 : Lines.pyIdx data ((data.length : Int) - 7) with
          | error e =>
              rw [e2] at h
              simp at h
          | ok roty0 =>
              rw [e2] at h
              dsimp only [] at h
              cases e3 : Lines.pyIntL (if roty0 = "-" then lineCol else roty0) with
              | error e =>
                  rw [e3] at h
                  simp at h
              | ok rotynum =>
                  rw [e3] at h
                  dsimp only [] at h
                  by_cases hs : Py.pyIn "/" ("As" ++ tty) = true
                  · rw [if_pos hs] at h
                    simp only [pure, Except.pure, Except.ok.injEq, Option.some.injEq,
                      Prod.mk.injEq] at h
                    obtain ⟨hl, hi⟩ := h
                    subst hl
                    subst hi
                    exact ⟨⟨rotynum, rfl⟩, hs⟩
                  · rw [if_neg hs] at h
                    simp [pure, Except.pure] at h

/-- C7: every parsed console-line table row gets the line id str(2000 +
rotary index) and only rows whose interface name contains the slot/port
slash are kept; a row with rotary placeholder dash and line number 5
yields id 2005 (the index falls back to the line number); a row whose
interface name lacks the slash is excluded from the result. -/
theorem C7_line_id_parsing :
    (∀ (txtline lineId interface : String),
      Lines.processRow txtline = .ok (some (lineId, interface)) →
      (∃ rotynum : Int, lineId = Py.intToStr (Lines.offset + rotynum)) ∧
      Py.pyIn "/" interface = true) ∧
    Lines.processRow "* 0/2/0 5 TTY 9600/9600 - - - - 0 0 0/0" =
      .ok (some ("2005", "As0/2/0")) ∧
    Lines.processRow "2066 5 TTY 9600/9600 - - - - 0 0 00" = .ok none := by
  refine ⟨?_, rfl, rfl⟩
  intro txtline lineId interface h
  unfold Lines.processRow at h
  cases hc : Py.pyIn "TTY" txtline with
  | false => simp [hc] at h
  | true =>
      rw [hc] at h
      simp only [Bool.not_true, Bool.false_eq_true, if_false] at h
      exact rowFromData_spec _ _ _ h

/-- C7 witness: the universal clause applied to the concrete row with
rotary dash and line number 5. -/
theorem C7_line_id_parsing_witness :
    (∃ rotynum : Int, "2005" = Py.intToStr (Lines.offset + rotynum)) ∧
    Py.pyIn "/" "As0/2/0" = true :=
  C7_line_id_parsing.1 "* 0/2/0 5 TTY 9600/9600 - - - - 0 0 0/0" "2005" "As0/2/0" rfl


/-- KeyError-freedom is preserved by bind. -/
theorem isKeyError_bind {A B : Type} (x : Except Store.PyErr A) (f : A → Except Store.PyErr B)
    (hx : Store.isKeyError x = false) (hf : ∀ a, Store.isKeyError (f a) = false) :
    Store.isKeyError (x >>= f) = false := by
  cases x with
  | error e =>
      cases e with
      | keyError k => exact absurd hx (by simp [Store.isKeyError])
      | invalidToken => rfl
      | valueError => rfl
      | nameError n => rfl
  | ok a =>
      simp only [Bind.bind, Except.bind]
      exact hf a

/-- A decrypt_password call never raises KeyError. -/
theorem liftDec_no_keyError (dec : Store.DecOracle) (s : String) :
    Store.isKeyError (Store.liftDec dec s) = false := by
  unfold Store.liftDec
  cases dec s <;> rfl

/-- int() never raises KeyError. -/
theorem pyInt_no_keyError (s : String) : Store.isKeyError (Store.pyInt s) = false := by
  unfold Store.pyInt
  dsimp only []
  split <;> rfl

/-- Field resolution under the SSH_pwdecrypt.py policy never raises
KeyError: unknown realm references become empty instead. -/
theorem resolveFieldsSSH_no_keyError (dec : Store.DecOracle) (realms : Store.RealmMap)
    (device curdevice ip0 device_type username0 password0 secret0 : String)
    (ssh_port : Int) :
    Store.isKeyError (Store.resolveFields Store.refGetSSH dec realms device
      curdevice ip0 device_type username0 password0 secret0 ssh_port) = false := by
  unfold Store.resolveFields
  dsimp only []
  apply isKeyError_bind
  · unfold Store.resolveUserField
    split
    · rfl
    · rfl
  · intro username
    apply isKeyError_bind
    · unfold Store.resolvePassField
      split
      · rfl
      · split
        · exact liftDec_no_keyError dec password0
        · rfl
    · intro password
      apply isKeyError_bind
      · unfold Store.resolveSecretField
        split
        · rfl
        · split
          · exact liftDec_no_keyError dec secret0
          · rfl
      · intro secret
        split
        · split <;> rfl
        · rfl

/-- Line processing under the SSH_pwdecrypt.py policy never raises
KeyError. -/
theorem processLineSSH_no_keyError (dec : Store.DecOracle) (realms : Store.RealmMap)
    (device line : String) :
    Store.isKeyError (Store.processLine Store.refGetSSH dec realms device line) = false := by
  unfold Store.processLine
  dsimp only []
  split
  · split
    · split
      · apply resolveFieldsSSH_no_keyError
      · rfl
    · split
      · split
        · apply isKeyError_bind
          · apply pyInt_no_keyError
          · intro p
            apply resolveFieldsSSH_no_keyError
        · rfl
      · rfl
  · rfl

/-- The SSH_pwdecrypt.py device scan never raises KeyError. -/
theorem scanLinesSSH_no_keyError (dec : Store.DecOracle) (realms : Store.RealmMap)
    (device : String) (lines : List String) :
    ∀ port0 : Int,
      Store.isKeyError (Store.scanLines Store.refGetSSH dec realms device lines port0) =
        false := by
  induction lines with
  | nil => intro port0; rfl
  | cons l rest ih =>
      intro port0
      unfold Store.scanLines
      apply isKeyError_bind
      · exact processLineSSH_no_keyError dec realms device l
      · intro step
        cases step with
        | skip => exact ih port0
        | noMatch p => exact ih p
        | stop r p => rfl

/-- C5 as amended: the SSH_pwdecrypt.py variant never aborts with a realm
lookup error - an unknown star realm token is downgraded to the empty
value (making a matched device Unresolved when the field is required) -
while pwdecrypt.py, on the same input, raises an unhandled KeyError. -/
theorem C5_unknown_realm_policy :
    (∀ (dec : Store.DecOracle) (realms : Store.RealmMap) (device : String)
      (lines : List String) (port0 : Int),
      Store.isKeyError (Store.scanLines Store.refGetSSH dec realms device lines port0) =
        false) ∧
    Store.ssh_read_deviceinfo (fun _ => some "x") [("NET1", ⟨"a", "b", "c"⟩)] "r1"
      ["r1;a.b.c;ios;*BOGUS;PW;SEC"] = .ok (.unresolved, 22) :=
  ⟨fun dec realms device lines port0 => scanLinesSSH_no_keyError dec realms device lines port0,
   rfl⟩

/-- str.replace with a pattern that does not occur leaves the character
list unchanged. -/
theorem replAux_id :
    ∀ (fuel : Nat) (pat rep l : List Char), l.length ≤ fuel →
      Py.subIn pat l = false → Lines.replAux fuel pat rep l = l := by
  intro fuel
  induction fuel with
  | zero => intro pat rep l hl hs; rfl
  | succ fuel ih =>
      intro pat rep l hl hs
      cases l with
      | nil => rfl
      | cons c r =>
          have hsplit : pat.isPrefixOf (c :: r) = false ∧ Py.subIn pat r = false := by
            have hdef : Py.subIn pat (c :: r) = (pat.isPrefixOf (c :: r) || Py.subIn pat r) := rfl
            rw [hdef] at hs
            exact Bool.or_eq_false_iff.mp hs
          have hred : Lines.replAux (fuel + 1) pat rep (c :: r) =
              if pat.isPrefixOf (c :: r) = true then
                rep ++ Lines.replAux fuel pat rep ((c :: r).drop pat.length)
              else c :: Lines.replAux fuel pat rep r := rfl
          rw [hred, if_neg (by simp [hsplit.1])]
          rw [ih pat rep r (by simpa using Nat.le_of_succ_le_succ hl) hsplit.2]

/-- str.replace with a pattern that does not occur in the string is the
identity. -/
theorem pyReplace_id (s pat rep : String) (h : Py.pyIn pat s = false) :
    Lines.pyReplace s pat rep = s := by
  unfold Lines.pyReplace
  rw [replAux_id s.data.length pat.data rep.data s.data (le_refl _) h]

/-- C8 as amended: normalization is the identity on every name to which no
rule applies, so it is idempotent exactly on names whose normalized form
triggers no further rule; the arp variant is likewise idempotent on
rule-free names.  (It is not idempotent in general: see the
counterexample.) -/
theorem C8_rule_free_fixed_point :
    (∀ s : String, Ifname.ruleFree s = true → Ifname.short_ifName s = s) ∧
    (∀ s : String, Ifname.ruleFree (Ifname.short_ifName s) = true →
      Ifname.short_ifName (Ifname.short_ifName s) = Ifname.short_ifName s) ∧
    (∀ s : String, Ifname.ruleFree s = true →
      Ifname.short_ifName_arp (Ifname.short_ifName_arp s) = Ifname.short_ifName_arp s) := by
  have main : ∀ s, Ifname.ruleFree s = true → Ifname.short_ifName s = s := by
    intro s h
    unfold Ifname.ruleFree at h
    simp only [Bool.and_eq_true, Bool.not_eq_true'] at h
    obtain ⟨⟨⟨⟨⟨⟨⟨⟨⟨⟨⟨h1, h2⟩, h3⟩, h4⟩, h5⟩, h6⟩, h7⟩, h8⟩, h9⟩, h10⟩, h11⟩, h12⟩ := h
    unfold Ifname.short_ifName
    dsimp only []
    rw [pyReplace_id s _ _ h1, pyReplace_id s _ _ h2, pyReplace_id s _ _ h3,
      pyReplace_id s _ _ h4, pyReplace_id s _ _ h5, pyReplace_id s _ _ h6,
      pyReplace_id s _ _ h7, pyReplace_id s _ _ h8]
    simp [h9, h10, h11, h12]
  refine ⟨main, fun s h => main _ h, ?_⟩
  intro s h
  have hfix := main s h
  have harp : Ifname.short_ifName_arp s =
      (if Ifname.ignore_ifName s = true then "" else s) := by
    unfold Ifname.short_ifName_arp
    rw [hfix]
  by_cases hig : Ifname.ignore_ifName s = true
  · rw [if_pos hig] at harp
    rw [harp]
    rfl
  · rw [if_neg hig] at harp
    rw [harp, harp]

/-- C8 witness: an already-normalized name is a fixed point, in both
variants. -/
theorem C8_rule_free_fixed_point_witness :
    Ifname.short_ifName "Te1/1" = "Te1/1" ∧
    Ifname.short_ifName_arp (Ifname.short_ifName_arp "Te1/1") =
      Ifname.short_ifName_arp "Te1/1" :=
  ⟨C8_rule_free_fixed_point.1 "Te1/1" rfl, C8_rule_free_fixed_point.2.2 "Te1/1" rfl⟩

/-- C3 as amended: realm lookups use the full star-prefixed field value as
the key, so the realm table must carry the key with its star, and the
device password field must be nonempty for resolution to succeed.  With
realm line *NET1;admin;ENC;* and device line r1;;ios;*NET1;*NET1;*NET1,
resolving r1 yields address r1 (defaulted from the empty address field),
username admin, password decrypt(ENC), and an enable-secret equal to that
decrypted password via the realm-file star convention. -/
theorem C3_star_realm_scenario :
    ∀ pw : String, pw ≠ "" →
      Store.get_credentials (fun s => if s = "ENC" then some pw else none) true true
        ["*NET1;admin;ENC;*"] ["r1;;ios;*NET1;*NET1;*NET1"] "r1" =
        .ok (.found ⟨"r1", 3, "ios", "admin", pw, pw⟩, 22) := by
  intro pw hpw
  have hneg : ¬ ("admin" = "" ∨ pw = "" ∨ pw = "") := by
    simp [hpw]
  have hline : Store.readCredentialsLine (fun s => if s = "ENC" then some pw else none)
      [] "*NET1;admin;ENC;*" = .ok [("*NET1", ⟨"admin", pw, pw⟩)] := by
    have h0 : (if "admin" = "" ∨ pw = "" ∨ pw = "" then
          (pure [] : Except Store.PyErr Store.RealmMap)
        else pure (Store.dictSet [] "*NET1" ⟨"admin", pw, pw⟩)) =
        .ok [("*NET1", ⟨"admin", pw, pw⟩)] := by
      rw [if_neg hneg]
      rfl
    exact h0
  have hfold : List.foldlM (Store.readCredentialsLine
        (fun s => if s = "ENC" then some pw else none)) ([] : Store.RealmMap)
        ["*NET1;admin;ENC;*"] = .ok [("*NET1", ⟨"admin", pw, pw⟩)] := by
    have h0 : (Store.readCredentialsLine (fun s => if s = "ENC" then some pw else none)
          [] "*NET1;admin;ENC;*" >>= fun b =>
          List.foldlM (Store.readCredentialsLine
            (fun s => if s = "ENC" then some pw else none)) b ([] : List String)) =
        .ok [("*NET1", ⟨"admin", pw, pw⟩)] := by
      rw [hline]
      rfl
    exact h0
  have hcred : Store.read_credentials (fun s => if s = "ENC" then some pw else none)
      ["*NET1;admin;ENC;*"] = .ok (some [("*NET1", ⟨"admin", pw, pw⟩)]) := by
    unfold Store.read_credentials
    rw [hfold]
    rfl
  have hpl : Store.processLine Store.refGetPwd
      (fun s => if s = "ENC" then some pw else none)
      [("*NET1", ⟨"admin", pw, pw⟩)] "r1" "r1;;ios;*NET1;*NET1;*NET1" =
      .ok (.stop (.found ⟨"r1", 3, "ios", "admin", pw, pw⟩) 22) := by
    have h0 : (if "admin" = "" ∨ pw = "" ∨ pw = "" then
          (pure (Store.LineStep.stop Store.DevResult.unresolved 22) :
            Except Store.PyErr Store.LineStep)
        else pure (Store.LineStep.stop
          (Store.DevResult.found ⟨"r1", 3, "ios", "admin", pw, pw⟩) 22)) =
        .ok (.stop (.found ⟨"r1", 3, "ios", "admin", pw, pw⟩) 22) := by
      rw [if_neg hneg]
      rfl
    exact h0
  have hdev : Store.read_deviceinfo (fun s => if s = "ENC" then some pw else none)
      [("*NET1", ⟨"admin", pw, pw⟩)] "r1" ["r1;;ios;*NET1;*NET1;*NET1"] =
      .ok (.found ⟨"r1", 3, "ios", "admin", pw, pw⟩, 22) := by
    have h0 : (Store.processLine Store.refGetPwd
          (fun s => if s = "ENC" then some pw else none)
          [("*NET1", ⟨"admin", pw, pw⟩)] "r1" "r1;;ios;*NET1;*NET1;*NET1" >>=
          fun step =>
          match step with
          | .skip => Store.scanLines Store.refGetPwd
              (fun s => if s = "ENC" then some pw else none)
              [("*NET1", ⟨"admin", pw, pw⟩)] "r1" [] 22
          | .noMatch p => Store.scanLines Store.refGetPwd
              (fun s => if s = "ENC" then some pw else none)
              [("*NET1", ⟨"admin", pw, pw⟩)] "r1" [] p
          | .stop r p => pure (r, p)) =
        .ok (.found ⟨"r1", 3, "ios", "admin", pw, pw⟩, 22) := by
      rw [hpl]
      rfl
    exact h0
  have hmain : (Store.read_credentials (fun s => if s = "ENC" then some pw else none)
        ["*NET1;admin;ENC;*"] >>= fun realms? =>
        match realms? with
        | none => .error (.nameError "ssh_port")
        | some realms => Store.read_deviceinfo
            (fun s => if s = "ENC" then some pw else none) realms "r1"
            ["r1;;ios;*NET1;*NET1;*NET1"]) =
      .ok (.found ⟨"r1", 3, "ios", "admin", pw, pw⟩, 22) := by
    rw [hcred]
    exact hdev
  exact hmain

/-- C3 witness: the amended scenario at a concrete decrypted password. -/
theorem C3_star_realm_scenario_witness :
    Store.get_credentials (fun s => if s = "ENC" then some "pw0" else none) true true
      ["*NET1;admin;ENC;*"] ["r1;;ios;*NET1;*NET1;*NET1"] "r1" =
      .ok (.found ⟨"r1", 3, "ios", "admin", "pw0", "pw0"⟩, 22) :=
  C3_star_realm_scenario "pw0" (by decide)
